import Mathlib

/-!
Verification of the QA dashboard script (dashboard/src/dashboard.py).

The script aggregates linter, docstyle, coverage and CI information for a
fixed list of repositories.  The pure logic of that script is embedded
shallowly here:

* Python strings are embedded as lists of characters (`List Char`), and the
  string methods used by the script (rstrip, strip, endswith) are defined on
  that representation;
* the result-file parser `parse_linter_results` becomes a fold of a step
  function over the list of input lines;
* the process environment becomes an explicit membership function
  `String → Bool`, and `sys.exit(1)` becomes the error case of `Except`;
* filesystem and CSV side effects become explicit values describing the
  performed action (`CleanupAction`, the appended CSV row);
* float formatting with the Python format string ":.0f" is modelled exactly
  over the integers: round to nearest with ties going to the even integer.
-/

namespace Dashboard

/-! ## Python string primitives over `List Char` -/

/-- Whitespace test used by the Python string-trimming methods. -/
def isSpaceChar (c : Char) : Bool := c.isWhitespace

/-- Python rstrip(): remove trailing whitespace. -/
def rstrip (l : List Char) : List Char := (l.reverse.dropWhile isSpaceChar).reverse

/-- Python strip(): remove leading and trailing whitespace. -/
def strip (l : List Char) : List Char := (rstrip l).dropWhile isSpaceChar

/-- Python endswith(): suffix test. -/
def endswith (l pat : List Char) : Bool := pat.isSuffixOf l

/-! ## percentage (dashboard.py lines 162-168) -/

/-- Rounding performed by the Python format string ":.0f" on the exact
quotient num/den: round to the nearest integer, ties to the even integer.
The float arithmetic of the script is modelled exactly over the rationals. -/
def formatNearestInt (num den : Nat) : Nat :=
  if 2 * (num % den) < den then num / den
  else if den < 2 * (num % den) then num / den + 1
  else if num / den % 2 = 0 then num / den else num / den + 1

/-- percentage(part1, part2) from dashboard.py: returns "0" when the total is
zero, otherwise the decimal string of 100 * part2 / (part1 + part2) rounded
to the nearest integer. -/
def percentage (part1 part2 : Nat) : String :=
  let total := part1 + part2
  if total = 0 then "0"
  else toString (formatNearestInt (100 * part2) total)

theorem formatNearestInt_le (num den : Nat) (hd : 0 < den) (h : num ≤ 100 * den) :
    formatNearestInt num den ≤ 100 := by
  have hdm := Nat.div_add_mod num den
  have hmod : num % den < den := Nat.mod_lt _ hd
  have hq : num / den ≤ 100 := by
    have h2 := Nat.div_le_div_right (c := den) h
    rwa [Nat.mul_div_cancel _ hd] at h2
  have hq2 : 0 < num % den → num / den < 100 := by
    intro hr
    by_contra hge
    push_neg at hge
    have h3 : 100 * den ≤ num / den * den := Nat.mul_le_mul_right den hge
    rw [Nat.mul_comm (num / den) den] at h3
    omega
  unfold formatNearestInt
  split
  · exact hq
  · split
    · rename_i h1 h2
      have h4 : 0 < num % den := by omega
      have h5 := hq2 h4
      omega
    · split
      · exact hq
      · rename_i h1 h2 h3
        have h4 : 0 < num % den := by omega
        have h5 := hq2 h4
        omega

theorem formatNearestInt_zero (den : Nat) (hd : 0 < den) : formatNearestInt 0 den = 0 := by
  unfold formatNearestInt
  simp [Nat.zero_mod, Nat.zero_div, hd]

theorem formatNearestInt_full (den : Nat) (hd : 0 < den) :
    formatNearestInt (100 * den) den = 100 := by
  unfold formatNearestInt
  simp [Nat.mul_mod_left, Nat.mul_div_cancel _ hd, hd]

/-- C3: percentage(0,0) = "0"; every result is the decimal string of an
integer between 0 and 100; percentage(x,0) = "0" for every x; and
percentage(0,x) = "100" for every positive x. -/
theorem percentage_spec :
    percentage 0 0 = "0" ∧
    (∀ part1 part2 : Nat, ∃ n : Nat, n ≤ 100 ∧ percentage part1 part2 = toString n) ∧
    (∀ x : Nat, percentage x 0 = "0") ∧
    (∀ x : Nat, 0 < x → percentage 0 x = "100") := by
  refine ⟨rfl, ?_, ?_, ?_⟩
  · intro part1 part2
    by_cases h : part1 + part2 = 0
    · exact ⟨0, by omega, by simp only [percentage, h, if_pos]; rfl⟩
    · refine ⟨formatNearestInt (100 * part2) (part1 + part2), ?_, by simp [percentage, h]⟩
      exact formatNearestInt_le _ _ (by omega) (Nat.mul_le_mul_left 100 (by omega))
  · intro x
    by_cases h : x = 0
    · simp [percentage, h]
    · have hx : ¬ (x + 0 = 0) := by omega
      simp only [percentage, hx, if_false]
      rw [Nat.mul_zero, formatNearestInt_zero _ (by omega)]
      rfl
  · intro x hx
    have hx0 : ¬ (0 + x = 0) := by omega
    simp only [percentage, hx0, if_false]
    rw [Nat.zero_add, formatNearestInt_full _ hx]
    rfl

theorem percentage_spec_witness : 0 < 7 ∧ percentage 0 7 = "100" :=
  ⟨by decide, percentage_spec.2.2.2 7 (by decide)⟩

/-! ## parse_linter_results (dashboard.py lines 171-203) -/

/-- Pattern ".py" of the file-path test line.endswith(".py"). -/
def pyExt : List Char := ".py".data

/-- Marker pattern of line.endswith("    Pass"). -/
def passMarker : List Char := "    Pass".data

/-- Marker pattern of line.endswith("    Fail"). -/
def failMarker : List Char := "    Fail".data

/-- State of the sequential scan in parse_linter_results: the local
variables source, files, passed, failed, total of the Python loop.  The
Python dict files is embedded as a map from path to optional outcome. -/
structure ParseState where
  source : Option (List Char)
  files : List Char → Option Bool
  passed : Nat
  failed : Nat
  total : Nat

/-- Values of the loop variables before the first line is read. -/
def initState : ParseState :=
  { source := none, files := fun _ => none, passed := 0, failed := 0, total := 0 }

/-- Python dict assignment files[k] = v. -/
def updateFiles (m : List Char → Option Bool) (k : List Char) (v : Bool) :
    List Char → Option Bool :=
  fun x => if x = k then some v else m x

/-- One iteration of the loop body of parse_linter_results: the line is
right-stripped; a line ending in ".py" becomes the current source; a line
ending in "    Pass" or "    Fail" is counted and recorded for the current
source, provided the current source is truthy (the guard if source:). -/
def process_line (st : ParseState) (line0 : List Char) : ParseState :=
  let line := rstrip line0
  let st1 := if endswith line pyExt then { st with source := some (strip line) } else st
  let st2 :=
    if endswith line passMarker then
      match st1.source with
      | some s =>
          if s.isEmpty then st1
          else { st1 with passed := st1.passed + 1, total := st1.total + 1,
                          files := updateFiles st1.files s true }
      | none => st1
    else st1
  let st3 :=
    if endswith line failMarker then
      match st2.source with
      | some s =>
          if s.isEmpty then st2
          else { st2 with failed := st2.failed + 1, total := st2.total + 1,
                          files := updateFiles st2.files s false }
      | none => st2
    else st2
  st3

/-- Record returned by parse_linter_results.  The two progress-bar fields
are produced by the html module, outside the scope of the claims, and are
omitted. -/
structure LinterResult where
  files : List Char → Option Bool
  total : Nat
  passed : Nat
  failed : Nat
  passedPct : String
  failedPct : String

/-- parse_linter_results, with the contents of the result file given as the
list of its lines. -/
def parse_linter_results (lines : List (List Char)) : LinterResult :=
  let st := lines.foldl process_line initState
  { files := st.files, total := st.total, passed := st.passed, failed := st.failed,
    passedPct := percentage st.failed st.passed,
    failedPct := percentage st.passed st.failed }

/-! ### Facts about line classification -/

theorem getLast?_of_endswith (l p : List Char) (h : endswith l p = true) (hp : p ≠ []) :
    l.getLast? = p.getLast? := by
  rcases List.isSuffixOf_iff_suffix.mp h with ⟨t, rfl⟩
  exact List.getLast?_append_of_ne_nil t hp

theorem endswith_exclusive (l p1 p2 : List Char) (h1 : endswith l p1 = true)
    (hp1 : p1 ≠ []) (hp2 : p2 ≠ []) (hne : p1.getLast? ≠ p2.getLast?) :
    endswith l p2 = false := by
  rw [Bool.eq_false_iff]
  intro h2
  exact hne ((getLast?_of_endswith l p1 h1 hp1).symm.trans (getLast?_of_endswith l p2 h2 hp2))

theorem dropWhile_idem (p : Char → Bool) (l : List Char) :
    (l.dropWhile p).dropWhile p = l.dropWhile p := by
  induction l with
  | nil => rfl
  | cons a l ih =>
      by_cases h : p a = true
      · simp [List.dropWhile_cons, h, ih]
      · simp [List.dropWhile_cons, h]

theorem rstrip_idem (l : List Char) : rstrip (rstrip l) = rstrip l := by
  unfold rstrip
  rw [List.reverse_reverse, dropWhile_idem]

/-- A right-stripped line ending in ".py" keeps that suffix after strip()
and in particular strips to a nonempty string. -/
theorem strip_of_endswith_py (l : List Char) (h : endswith (rstrip l) pyExt = true) :
    (strip (rstrip l)).isEmpty = false := by
  unfold strip
  rw [rstrip_idem]
  rcases List.isSuffixOf_iff_suffix.mp h with ⟨t, ht⟩
  rw [Bool.eq_false_iff]
  intro hempty
  have hnil : (rstrip l).dropWhile isSpaceChar = [] := List.isEmpty_iff.mp hempty
  have hall : ∀ x ∈ rstrip l, isSpaceChar x = true := List.dropWhile_eq_nil_iff.mp hnil
  have hy : Char.ofNat 121 ∈ rstrip l := by
    rw [← ht]
    simp [pyExt]
  have := hall _ hy
  simp [isSpaceChar] at this

/-! ### Behavior of the step function on the three kinds of lines -/

/-- A file-path line only updates the current source. -/
theorem process_line_file (st : ParseState) (f : List Char)
    (h : endswith (rstrip f) pyExt = true) :
    process_line st f = { st with source := some (strip (rstrip f)) } := by
  have hpass : endswith (rstrip f) passMarker = false :=
    endswith_exclusive _ pyExt passMarker h (by decide) (by decide) (by decide)
  have hfail : endswith (rstrip f) failMarker = false :=
    endswith_exclusive _ pyExt failMarker h (by decide) (by decide) (by decide)
  simp [process_line, h, hpass, hfail]

/-- A "    Pass" line, when a nonempty source has been seen, bumps the
passed and total counters and records a true outcome for the source. -/
theorem process_line_pass (st : ParseState) (s : List Char) (hs : st.source = some s)
    (hne : s.isEmpty = false) :
    process_line st passMarker =
      { st with passed := st.passed + 1, total := st.total + 1,
                files := updateFiles st.files s true } := by
  have h1 : rstrip passMarker = passMarker := by decide
  have h2 : endswith passMarker pyExt = false := by decide
  have h3 : endswith passMarker passMarker = true := by decide
  have h4 : endswith passMarker failMarker = false := by decide
  simp [process_line, h1, h2, h3, h4, hs, hne]

/-- A "    Fail" line, when a nonempty source has been seen, bumps the
failed and total counters and records a false outcome for the source. -/
theorem process_line_fail (st : ParseState) (s : List Char) (hs : st.source = some s)
    (hne : s.isEmpty = false) :
    process_line st failMarker =
      { st with failed := st.failed + 1, total := st.total + 1,
                files := updateFiles st.files s false } := by
  have h1 : rstrip failMarker = failMarker := by decide
  have h2 : endswith failMarker pyExt = false := by decide
  have h3 : endswith failMarker passMarker = false := by decide
  have h4 : endswith failMarker failMarker = true := by decide
  simp [process_line, h1, h2, h3, h4, hs, hne]

/-- Before any file-path line has been seen, every other line (in
particular an unmatched "    Pass" or "    Fail" marker) leaves the state
untouched. -/
theorem process_line_no_source (st : ParseState) (l : List Char)
    (hs : st.source = none) (h : endswith (rstrip l) pyExt = false) :
    process_line st l = st := by
  simp [process_line, h, hs]

/-! ### Well-formed inputs: alternating file lines and marker lines -/

/-- The exact marker line for an outcome. -/
def markerLine (b : Bool) : List Char := if b then passMarker else failMarker

/-- Input text made of one file-path line followed by exactly one marker
line, for each (file, outcome) pair. -/
def linesOfPairs : List (List Char × Bool) → List (List Char)
  | [] => []
  | (f, b) :: rest => f :: markerLine b :: linesOfPairs rest

/-- Left-biased choice on optional outcomes. -/
def firstSome (a b : Option Bool) : Option Bool :=
  match a with
  | some x => some x
  | none => b

/-- Outcome of the last pair of the list whose (stripped) file path equals
the key, if any. -/
def lastOutcome : List (List Char × Bool) → List Char → Option Bool
  | [], _ => none
  | (f, b) :: rest, key =>
      firstSome (lastOutcome rest key) (if key = strip (rstrip f) then some b else none)

/-- Last element of a list of outcomes, if any. -/
def lastOf : List Bool → Option Bool
  | [] => none
  | b :: rest => firstSome (lastOf rest) (some b)

theorem firstSome_none_right (a : Option Bool) : firstSome a none = a := by
  cases a <;> rfl

theorem firstSome_assoc (a b c : Option Bool) :
    firstSome (firstSome a b) c = firstSome a (firstSome b c) := by
  cases a <;> rfl

/-- Both marker lines at once: counting and recording for the current
nonempty source. -/
theorem process_line_marker (st : ParseState) (s : List Char) (b : Bool)
    (hs : st.source = some s) (hne : s.isEmpty = false) :
    process_line st (markerLine b) =
      { st with passed := st.passed + (if b then 1 else 0),
                failed := st.failed + (if b then 0 else 1),
                total := st.total + 1,
                files := updateFiles st.files s b } := by
  cases b with
  | false =>
      rw [show markerLine false = failMarker from rfl, process_line_fail st s hs hne]
      simp
  | true =>
      rw [show markerLine true = passMarker from rfl, process_line_pass st s hs hne]
      simp

theorem foldl_linesOfPairs (pairs : List (List Char × Bool)) (st : ParseState)
    (hwf : ∀ p ∈ pairs, endswith (rstrip p.1) pyExt = true) :
    ((linesOfPairs pairs).foldl process_line st).total = st.total + pairs.length ∧
    ((linesOfPairs pairs).foldl process_line st).passed
        + ((linesOfPairs pairs).foldl process_line st).failed
      = st.passed + st.failed + pairs.length ∧
    ∀ key, ((linesOfPairs pairs).foldl process_line st).files key
      = firstSome (lastOutcome pairs key) (st.files key) := by
  induction pairs generalizing st with
  | nil => simp [linesOfPairs, lastOutcome, firstSome]
  | cons p rest ih =>
      obtain ⟨f, b⟩ := p
      have hf : endswith (rstrip f) pyExt = true := hwf (f, b) (List.mem_cons_self _ _)
      have hs0 : (strip (rstrip f)).isEmpty = false := strip_of_endswith_py f hf
      have hrest : ∀ p ∈ rest, endswith (rstrip p.1) pyExt = true :=
        fun p hp => hwf p (List.mem_cons_of_mem _ hp)
      rw [show linesOfPairs ((f, b) :: rest) = f :: markerLine b :: linesOfPairs rest from rfl,
          List.foldl_cons, List.foldl_cons, process_line_file st f hf,
          process_line_marker _ (strip (rstrip f)) b rfl hs0]
      obtain ⟨ht, hpf, hfl⟩ := ih _ hrest
      refine ⟨?_, ?_, ?_⟩
      · rw [ht]
        simp only [List.length_cons]
        cases b <;> (try simp) <;> omega
      · rw [hpf]
        simp only [List.length_cons]
        cases b <;> (try simp) <;> omega
      · intro key
        rw [hfl key,
            show lastOutcome ((f, b) :: rest) key
              = firstSome (lastOutcome rest key)
                  (if key = strip (rstrip f) then some b else none) from rfl,
            firstSome_assoc]
        by_cases hk : key = strip (rstrip f)
        · simp [updateFiles, firstSome, hk]
        · simp [updateFiles, firstSome, hk]

theorem parse_total (lines : List (List Char)) :
    (parse_linter_results lines).total = (lines.foldl process_line initState).total := rfl

theorem parse_passed (lines : List (List Char)) :
    (parse_linter_results lines).passed = (lines.foldl process_line initState).passed := rfl

theorem parse_failed (lines : List (List Char)) :
    (parse_linter_results lines).failed = (lines.foldl process_line initState).failed := rfl

theorem parse_files (lines : List (List Char)) :
    (parse_linter_results lines).files = (lines.foldl process_line initState).files := rfl

/-- C2: for well-formed input (file-path lines ending in ".py", each
followed by exactly one marker line) the returned record satisfies
total = passed + failed, and the files map holds exactly the distinct file
paths seen, each with its last-seen outcome. -/
theorem parse_linter_results_wellformed (pairs : List (List Char × Bool))
    (hwf : ∀ p ∈ pairs, endswith (rstrip p.1) pyExt = true) :
    (parse_linter_results (linesOfPairs pairs)).total
        = (parse_linter_results (linesOfPairs pairs)).passed
          + (parse_linter_results (linesOfPairs pairs)).failed ∧
    ∀ key, (parse_linter_results (linesOfPairs pairs)).files key = lastOutcome pairs key := by
  obtain ⟨ht, hpf, hfl⟩ := foldl_linesOfPairs pairs initState hwf
  rw [show initState.total = 0 from rfl] at ht
  rw [show initState.passed = 0 from rfl, show initState.failed = 0 from rfl] at hpf
  constructor
  · rw [parse_total, parse_passed, parse_failed, ht]
    omega
  · intro key
    rw [parse_files, hfl key, show initState.files key = none from rfl]
    exact firstSome_none_right _

/-- Sample well-formed input used to instantiate the C2 theorem. -/
def samplePairs : List (List Char × Bool) :=
  [("a.py".data, true), ("b.py".data, false), ("a.py".data, false)]

theorem parse_linter_results_wellformed_witness :
    (∀ p ∈ samplePairs, endswith (rstrip p.1) pyExt = true) ∧
    ((parse_linter_results (linesOfPairs samplePairs)).total
        = (parse_linter_results (linesOfPairs samplePairs)).passed
          + (parse_linter_results (linesOfPairs samplePairs)).failed ∧
     ∀ key, (parse_linter_results (linesOfPairs samplePairs)).files key
        = lastOutcome samplePairs key) :=
  ⟨by decide, parse_linter_results_wellformed samplePairs (by decide)⟩

/-! ### Unmatched markers (claim C4) -/

theorem foldl_no_py (ls : List (List Char)) (st : ParseState) (hs : st.source = none)
    (h : ∀ l ∈ ls, endswith (rstrip l) pyExt = false) :
    ls.foldl process_line st = st := by
  induction ls generalizing st with
  | nil => rfl
  | cons a t ih =>
      rw [List.foldl_cons, process_line_no_source st a hs (h a (List.mem_cons_self _ _))]
      exact ih st hs (fun l hl => h l (List.mem_cons_of_mem _ hl))

/-- C4: lines before the first file-path line, in particular "    Pass" or
"    Fail" markers with no preceding file line, increment no counter and add
no map entry: the parse result is exactly that of the remaining input. -/
theorem unmatched_markers_ignored (pre post : List (List Char))
    (h : ∀ l ∈ pre, endswith (rstrip l) pyExt = false) :
    parse_linter_results (pre ++ post) = parse_linter_results post := by
  unfold parse_linter_results
  rw [List.foldl_append, foldl_no_py pre initState rfl h]

/-- Sample malformed input used to instantiate the C4 theorem: two
unmatched markers and a junk line before a well-formed tail. -/
def sampleJunk : List (List Char) := [passMarker, failMarker, "junk".data]

theorem unmatched_markers_ignored_witness :
    (∀ l ∈ sampleJunk, endswith (rstrip l) pyExt = false) ∧
    parse_linter_results (sampleJunk ++ ["a.py".data, passMarker])
      = parse_linter_results ["a.py".data, passMarker] :=
  ⟨by decide, unmatched_markers_ignored sampleJunk _ (by decide)⟩

/-! ### One file line, many markers (claim C10) -/

theorem foldl_markers (ms : List Bool) (st : ParseState) (s : List Char)
    (hs : st.source = some s) (hne : s.isEmpty = false) :
    ((ms.map markerLine).foldl process_line st).total = st.total + ms.length ∧
    ((ms.map markerLine).foldl process_line st).passed = st.passed + ms.count true ∧
    ((ms.map markerLine).foldl process_line st).failed = st.failed + ms.count false ∧
    ∀ key, ((ms.map markerLine).foldl process_line st).files key
      = firstSome (if key = s then lastOf ms else none) (st.files key) := by
  induction ms generalizing st with
  | nil =>
      refine ⟨by simp, by simp, by simp, ?_⟩
      intro key
      by_cases hk : key = s <;> simp [lastOf, firstSome, hk]
  | cons b rest ih =>
      rw [List.map_cons, List.foldl_cons, process_line_marker st s b hs hne]
      obtain ⟨ht, hp, hf, hfl⟩ := ih { st with
          passed := st.passed + (if b then 1 else 0),
          failed := st.failed + (if b then 0 else 1),
          total := st.total + 1,
          files := updateFiles st.files s b } hs
      refine ⟨?_, ?_, ?_, ?_⟩
      · rw [ht]
        simp only [List.length_cons]
        omega
      · rw [hp]
        cases b <;> simp [List.count_cons] <;> omega
      · rw [hf]
        cases b <;> simp [List.count_cons] <;> omega
      · intro key
        rw [hfl key,
            show lastOf (b :: rest) = firstSome (lastOf rest) (some b) from rfl]
        by_cases hk : key = s
        · simp only [hk, if_pos rfl, firstSome_assoc]
          simp [updateFiles, firstSome]
          cases lastOf rest <;> rfl
        · simp [updateFiles, firstSome, hk]

/-- C10: the current-file state is never reset after a marker is consumed:
one file-path line followed by n marker lines yields total = n, passed and
failed counting the markers, while the files map holds the single file with
the last outcome, so total can exceed the number of distinct files. -/
theorem single_file_many_markers (f : List Char) (ms : List Bool)
    (h : endswith (rstrip f) pyExt = true) :
    (parse_linter_results (f :: ms.map markerLine)).total = ms.length ∧
    (parse_linter_results (f :: ms.map markerLine)).passed = ms.count true ∧
    (parse_linter_results (f :: ms.map markerLine)).failed = ms.count false ∧
    ∀ key, (parse_linter_results (f :: ms.map markerLine)).files key
      = if key = strip (rstrip f) then lastOf ms else none := by
  have hs0 : (strip (rstrip f)).isEmpty = false := strip_of_endswith_py f h
  obtain ⟨ht, hp, hf, hfl⟩ :=
    foldl_markers ms ({ initState with source := some (strip (rstrip f)) } : ParseState)
      (strip (rstrip f)) rfl hs0
  refine ⟨?_, ?_, ?_, ?_⟩
  · rw [parse_total, List.foldl_cons, process_line_file initState f h, ht]
    simp [initState]
  · rw [parse_passed, List.foldl_cons, process_line_file initState f h, hp]
    simp [initState]
  · rw [parse_failed, List.foldl_cons, process_line_file initState f h, hf]
    simp [initState]
  · intro key
    rw [parse_files, List.foldl_cons, process_line_file initState f h, hfl key]
    rw [show ({ initState with source := some (strip (rstrip f)) } : ParseState).files key
          = none from rfl]
    exact firstSome_none_right _

theorem single_file_many_markers_witness :
    endswith (rstrip "a.py".data) pyExt = true ∧
    ((parse_linter_results ("a.py".data :: [true, true].map markerLine)).total = 2 ∧
     (parse_linter_results ("a.py".data :: [true, true].map markerLine)).passed = 2 ∧
     (parse_linter_results ("a.py".data :: [true, true].map markerLine)).failed = 0 ∧
     ∀ key, (parse_linter_results ("a.py".data :: [true, true].map markerLine)).files key
        = if key = strip (rstrip "a.py".data) then lastOf [true, true] else none) :=
  ⟨by decide, single_file_many_markers ("a.py".data) [true, true] (by decide)⟩

/-! ## update_overall_status (dashboard.py lines 216-268) -/

/-- Files ignored by Pylint (module-level dict, empty). -/
def ignored_files_for_pylint : List (String × List String) := []

/-- Files ignored by Pydocchecker (module-level dict). -/
def ignored_files_for_pydocstyle : List (String × List String) :=
  [("fabric8-analytics-worker", ["tests/data/license/license.py"])]

/-- The length of dict.get(repository, []): number of ignored files
registered for the repository. -/
def ignoredCount (d : List (String × List String)) (repository : String) : Nat :=
  match d.lookup repository with
  | some fs => fs.length
  | none => 0

/-- Modelled from the spec: unit_test_coverage_ok is imported from the
unit_tests module, which is not among the sources; per the spec it holds
exactly when the unit-test coverage is present and meets or exceeds the
configured minimum threshold. -/
def unit_test_coverage_ok (threshold : Nat) : Option Nat → Bool
  | none => false
  | some c => decide (threshold ≤ c)

/-- Linter or docstyle result record as read by update_overall_status. -/
structure RepoChecks where
  total : Nat
  failed : Nat

/-- The per-repository fields of the results bag that update_overall_status
reads. -/
structure OverallInput where
  source_files : Nat
  linter_checks : RepoChecks
  docstyle_checks : RepoChecks
  unit_test_coverage : Option Nat

/-- The two per-repository fields that update_overall_status writes. -/
structure OverallStatus where
  status : Bool
  remarks : String

/-- update_overall_status from dashboard.py, as a function from the fields
it reads to the fields it writes. -/
def update_overall_status (threshold : Nat) (repository : String) (inp : OverallInput) :
    OverallStatus :=
  let source_files := inp.source_files
  let linter_checks_total := inp.linter_checks.total
  let docstyle_checks_total := inp.docstyle_checks.total
  let ignored_pylint_files := ignoredCount ignored_files_for_pylint repository
  let ignored_pydocstyle_files := ignoredCount ignored_files_for_pydocstyle repository
  let status :=
    decide (source_files = linter_checks_total + ignored_pylint_files) &&
    decide (source_files = docstyle_checks_total + ignored_pydocstyle_files) &&
    decide (inp.linter_checks.failed = 0) &&
    decide (inp.docstyle_checks.failed = 0) &&
    unit_test_coverage_ok threshold inp.unit_test_coverage
  let remarks := ""
  let remarks :=
    if source_files ≠ linter_checks_total + ignored_pylint_files then
      remarks ++ "not all source files are checked by linter<br>"
    else remarks
  let remarks :=
    if source_files ≠ docstyle_checks_total + ignored_pydocstyle_files then
      remarks ++ "not all source files are checked by pydocstyle<br>"
    else remarks
  let remarks :=
    if linter_checks_total + ignored_pylint_files
        ≠ docstyle_checks_total + ignored_pydocstyle_files then
      remarks ++ (", linter checked " ++ toString linter_checks_total
        ++ " files, but pydocstyle checked " ++ toString docstyle_checks_total ++ " files")
    else remarks
  let remarks :=
    match inp.unit_test_coverage with
    | some c =>
        if !unit_test_coverage_ok threshold (some c) then
          remarks ++ "improve code coverage<br>"
        else remarks
    | none => remarks ++ "unit tests has not been setup<br>"
  let remarks :=
    if inp.linter_checks.failed ≠ 0 then remarks ++ "linter failed<br>" else remarks
  let remarks :=
    if inp.docstyle_checks.failed ≠ 0 then remarks ++ "pydocstyle check failed<br>" else remarks
  let remarks :=
    if ignored_pylint_files ≠ 0 then
      remarks ++ (toString ignored_pylint_files ++ " file"
        ++ (if 1 < ignored_pylint_files then "s" else "") ++ " ignored by pylint<br>")
    else remarks
  let remarks :=
    if ignored_pydocstyle_files ≠ 0 then
      remarks ++ (toString ignored_pydocstyle_files ++ " file"
        ++ (if 1 < ignored_pydocstyle_files then "s" else "") ++ " ignored by pydocstyle<br>")
    else remarks
  { status := status, remarks := remarks }

/-- C1: the overall status is true exactly when the linter and docstyle
totals (plus their ignored files) both match the source-file count, no
linter or docstyle check failed, and the unit-test coverage is present and
meets the configured minimum threshold. -/
theorem update_overall_status_true_iff (threshold : Nat) (repository : String)
    (inp : OverallInput) :
    (update_overall_status threshold repository inp).status = true ↔
      (inp.source_files
          = inp.linter_checks.total + ignoredCount ignored_files_for_pylint repository ∧
       inp.source_files
          = inp.docstyle_checks.total + ignoredCount ignored_files_for_pydocstyle repository ∧
       inp.linter_checks.failed = 0 ∧
       inp.docstyle_checks.failed = 0 ∧
       ∃ c, inp.unit_test_coverage = some c ∧ threshold ≤ c) := by
  have hok : unit_test_coverage_ok threshold inp.unit_test_coverage = true ↔
      ∃ c, inp.unit_test_coverage = some c ∧ threshold ≤ c := by
    cases hc : inp.unit_test_coverage with
    | none => simp [unit_test_coverage_ok]
    | some c => simp [unit_test_coverage_ok]
  simp only [update_overall_status, Bool.and_eq_true, decide_eq_true_eq, and_assoc, hok]

/-! ### Remark accumulation (claim C5) -/

theorem extension_ite (c : Prop) [Decidable c] (s u t : String) (h : ∃ r, s = t ++ r) :
    ∃ r, (if c then s ++ u else s) = t ++ r := by
  rcases h with ⟨r, rfl⟩
  by_cases hc : c
  · exact ⟨r ++ u, by rw [if_pos hc, String.append_assoc]⟩
  · exact ⟨r, by rw [if_neg hc]⟩

theorem extension_append (s u t : String) (h : ∃ r, s = t ++ r) :
    ∃ r, s ++ u = t ++ r := by
  rcases h with ⟨r, rfl⟩
  exact ⟨r ++ u, String.append_assoc _ _ _⟩

/-- C5: when the source-file count does not match the linter total plus the
linter-ignored count, the overall status is false and the remarks string
contains (here: starts with) the not-all-source-files-checked-by-linter
message. -/
theorem update_overall_status_linter_mismatch (threshold : Nat) (repository : String)
    (inp : OverallInput)
    (h : inp.source_files
        ≠ inp.linter_checks.total + ignoredCount ignored_files_for_pylint repository) :
    (update_overall_status threshold repository inp).status = false ∧
    ∃ r, (update_overall_status threshold repository inp).remarks
        = "not all source files are checked by linter<br>" ++ r := by
  constructor
  · have hdec : decide (inp.source_files
        = inp.linter_checks.total + ignoredCount ignored_files_for_pylint repository)
          = false := decide_eq_false h
    simp [update_overall_status, hdec]
  · simp only [update_overall_status]
    apply extension_ite
    apply extension_ite
    apply extension_ite
    apply extension_ite
    cases hc : inp.unit_test_coverage with
    | none =>
        apply extension_append
        apply extension_ite
        apply extension_ite
        rw [if_pos h]
        exact ⟨"", by rw [String.empty_append, String.append_empty]⟩
    | some c =>
        apply extension_ite
        apply extension_ite
        apply extension_ite
        rw [if_pos h]
        exact ⟨"", by rw [String.empty_append, String.append_empty]⟩

/-- Sample input used to instantiate the C5 theorem: 10 source files but
only 8 checked by the linter, nothing ignored. -/
def sampleMismatch : OverallInput :=
  { source_files := 10, linter_checks := { total := 8, failed := 0 },
    docstyle_checks := { total := 10, failed := 0 }, unit_test_coverage := some 90 }

theorem update_overall_status_linter_mismatch_witness :
    (sampleMismatch.source_files
        ≠ sampleMismatch.linter_checks.total + ignoredCount ignored_files_for_pylint "foo") ∧
    ((update_overall_status 80 "foo" sampleMismatch).status = false ∧
     ∃ r, (update_overall_status 80 "foo" sampleMismatch).remarks
        = "not all source files are checked by linter<br>" ++ r) :=
  ⟨by decide, update_overall_status_linter_mismatch 80 "foo" sampleMismatch (by decide)⟩

/-! ## check_environment_variables (dashboard.py lines 29-56) -/

/-- The eleven required environment variables. -/
def environment_variables : List String :=
  ["F8A_API_URL_STAGE",
   "F8A_API_URL_PROD",
   "F8A_JOB_API_URL_STAGE",
   "F8A_JOB_API_URL_PROD",
   "RECOMMENDER_API_TOKEN_STAGE",
   "RECOMMENDER_API_TOKEN_PROD",
   "JOB_API_TOKEN_STAGE",
   "JOB_API_TOKEN_PROD",
   "AWS_ACCESS_KEY_ID",
   "AWS_SECRET_ACCESS_KEY",
   "S3_REGION_NAME"]

/-- check_environment_variable: the process environment os.environ is the
membership function env; sys.exit(1) after the fatal diagnostic becomes the
error case carrying the diagnostic and the exit status 1. -/
def check_environment_variable (env : String → Bool) (env_var_name : String) :
    Except (String × Nat) Unit :=
  if env env_var_name then Except.ok ()
  else Except.error
    ("Fatal: " ++ env_var_name ++ " environment variable has to be specified", 1)

/-- The for-loop of check_environment_variables over a list of names:
sys.exit aborts the loop at the first missing variable. -/
def check_variables_from (env : String → Bool) : List String → Except (String × Nat) Unit
  | [] => Except.ok ()
  | e :: rest =>
    match check_environment_variable env e with
    | Except.ok _ => check_variables_from env rest
    | Except.error err => Except.error err

/-- check_environment_variables from dashboard.py. -/
def check_environment_variables (env : String → Bool) : Except (String × Nat) Unit :=
  check_variables_from env environment_variables

theorem check_variables_from_ok (env : String → Bool) (vs : List String)
    (h : ∀ e ∈ vs, env e = true) :
    check_variables_from env vs = Except.ok () := by
  induction vs with
  | nil => rfl
  | cons e rest ih =>
      have he : env e = true := h e (List.mem_cons_self _ _)
      simp only [check_variables_from, check_environment_variable, he, if_true]
      exact ih (fun x hx => h x (List.mem_cons_of_mem _ hx))

theorem check_variables_from_error (env : String → Bool) (vs : List String)
    (h : ∃ e ∈ vs, env e = false) :
    ∃ e, e ∈ vs ∧ env e = false ∧
      check_variables_from env vs =
        Except.error ("Fatal: " ++ e ++ " environment variable has to be specified", 1) := by
  induction vs with
  | nil => simp at h
  | cons a rest ih =>
      by_cases ha : env a = true
      · obtain ⟨e, he, hf⟩ := h
        rcases List.mem_cons.mp he with rfl | hmem
        · rw [ha] at hf
          exact absurd hf (by simp)
        · obtain ⟨e2, h1, h2, h3⟩ := ih ⟨e, hmem, hf⟩
          refine ⟨e2, List.mem_cons_of_mem _ h1, h2, ?_⟩
          simpa only [check_variables_from, check_environment_variable, ha, if_true] using h3
      · have ha2 : env a = false := by
          cases hb : env a
          · rfl
          · exact absurd hb ha
        refine ⟨a, List.mem_cons_self _ _, ha2, ?_⟩
        simp only [check_variables_from, check_environment_variable, ha2]
        rfl

/-- C6: with any of the eleven required environment variables absent, the
check ends in an exit with status 1 and a diagnostic naming a missing
variable; with all present it ends normally. -/
theorem check_environment_variables_spec (env : String → Bool) :
    environment_variables.length = 11 ∧
    ((∀ e ∈ environment_variables, env e = true) →
      check_environment_variables env = Except.ok ()) ∧
    ((∃ e ∈ environment_variables, env e = false) →
      ∃ e, e ∈ environment_variables ∧ env e = false ∧
        check_environment_variables env =
          Except.error ("Fatal: " ++ e ++ " environment variable has to be specified", 1)) := by
  refine ⟨by decide, ?_, ?_⟩
  · intro h
    exact check_variables_from_ok env environment_variables h
  · intro h
    exact check_variables_from_error env environment_variables h

theorem check_environment_variables_spec_witness :
    (∃ e ∈ environment_variables, (fun _ => false) e = false) ∧
    (∃ e, e ∈ environment_variables ∧ (fun _ => false) e = false ∧
      check_environment_variables (fun _ => false) =
        Except.error ("Fatal: " ++ e ++ " environment variable has to be specified", 1)) :=
  ⟨by decide, (check_environment_variables_spec (fun _ => false)).2.2 (by decide)⟩

/-! ## export_into_csv (dashboard.py lines 286-312) -/

/-- Result of check_system for one environment: the four liveness and
auth-token booleans. -/
structure SystemStatus where
  core_api_available : Bool
  jobs_api_available : Bool
  core_api_auth_token : Bool
  jobs_api_auth_token : Bool

/-- The eight per-repository numbers appended to the CSV row. -/
structure RepoCsvData where
  count : Nat
  total_lines : Nat
  linter_total : Nat
  linter_passed : Nat
  linter_failed : Nat
  docstyle_total : Nat
  docstyle_passed : Nat
  docstyle_failed : Nat

/-- A cell of the CSV row: the date string or a number. -/
inductive CsvValue where
  | str (v : String)
  | num (v : Nat)
deriving DecidableEq

/-- Python int() applied to a boolean. -/
def intOfBool (b : Bool) : Nat := if b then 1 else 0

/-- The record list built by export_into_csv: date, eight 0/1 liveness and
auth-token flags, then eight numbers appended per repository in order. -/
def csv_record (today : String) (stage production : SystemStatus)
    (repositories : List String) (data : String → RepoCsvData) : List CsvValue :=
  let record : List CsvValue := [
    CsvValue.str today,
    CsvValue.num (intOfBool stage.core_api_available),
    CsvValue.num (intOfBool stage.jobs_api_available),
    CsvValue.num (intOfBool stage.core_api_auth_token),
    CsvValue.num (intOfBool stage.jobs_api_auth_token),
    CsvValue.num (intOfBool production.core_api_available),
    CsvValue.num (intOfBool production.jobs_api_available),
    CsvValue.num (intOfBool production.core_api_auth_token),
    CsvValue.num (intOfBool production.jobs_api_auth_token)]
  repositories.foldl (fun record repository =>
    record ++ [CsvValue.num (data repository).count,
               CsvValue.num (data repository).total_lines,
               CsvValue.num (data repository).linter_total,
               CsvValue.num (data repository).linter_passed,
               CsvValue.num (data repository).linter_failed,
               CsvValue.num (data repository).docstyle_total,
               CsvValue.num (data repository).docstyle_passed,
               CsvValue.num (data repository).docstyle_failed]) record

/-- export_into_csv: opening dashboard.csv in append mode and writing one
row is embedded as appending the row to the current file contents. -/
def export_into_csv (csv_file : List (List CsvValue)) (today : String)
    (stage production : SystemStatus) (repositories : List String)
    (data : String → RepoCsvData) : List (List CsvValue) :=
  csv_file ++ [csv_record today stage production repositories data]

/-- The eight cells contributed by one repository. -/
def repoCells (data : String → RepoCsvData) (repository : String) : List CsvValue :=
  [CsvValue.num (data repository).count,
   CsvValue.num (data repository).total_lines,
   CsvValue.num (data repository).linter_total,
   CsvValue.num (data repository).linter_passed,
   CsvValue.num (data repository).linter_failed,
   CsvValue.num (data repository).docstyle_total,
   CsvValue.num (data repository).docstyle_passed,
   CsvValue.num (data repository).docstyle_failed]

theorem foldl_append_flatMap (l : List String) (g : String → List CsvValue)
    (init : List CsvValue) :
    l.foldl (fun acc a => acc ++ g a) init = init ++ l.flatMap g := by
  induction l generalizing init with
  | nil => simp
  | cons a t ih => simp [List.foldl_cons, ih, List.append_assoc]

/-- C7: every invocation appends exactly one row to the file; the row is
the date cell, the eight 0/1 liveness and auth-token cells in fixed order,
then the eight per-repository numbers for each repository in order; the row
is a pure function of the inputs, so identical inputs give an identical
row. -/
theorem export_into_csv_spec (csv_file : List (List CsvValue)) (today : String)
    (stage production : SystemStatus) (repositories : List String)
    (data : String → RepoCsvData) :
    export_into_csv csv_file today stage production repositories data
        = csv_file ++ [csv_record today stage production repositories data] ∧
    (export_into_csv csv_file today stage production repositories data).length
        = csv_file.length + 1 ∧
    csv_record today stage production repositories data
        = [CsvValue.str today,
           CsvValue.num (intOfBool stage.core_api_available),
           CsvValue.num (intOfBool stage.jobs_api_available),
           CsvValue.num (intOfBool stage.core_api_auth_token),
           CsvValue.num (intOfBool stage.jobs_api_auth_token),
           CsvValue.num (intOfBool production.core_api_available),
           CsvValue.num (intOfBool production.jobs_api_available),
           CsvValue.num (intOfBool production.core_api_auth_token),
           CsvValue.num (intOfBool production.jobs_api_auth_token)]
          ++ repositories.flatMap (repoCells data) := by
  refine ⟨rfl, ?_, ?_⟩
  · simp [export_into_csv]
  · unfold csv_record
    exact foldl_append_flatMap repositories (repoCells data) _

/-! ## production_smoketests_status (dashboard.py lines 428-436) -/

/-- One element of the builds array of the CI server response: the result
field is null or a string. -/
structure Build where
  result : Option String

/-- production_smoketests_status, as a function of the decoded builds
array: builds with a non-null result, and builds whose result is the string
SUCCESS. -/
def production_smoketests_status (builds : List Build) : Nat × Nat :=
  let total_builds := builds.filter (fun b => b.result.isSome)
  let success_builds := builds.filter (fun b => b.result == some "SUCCESS")
  (total_builds.length, success_builds.length)

/-- C8: the pair returned is (number of builds with non-null result, number
of builds with result SUCCESS), and the second component never exceeds the
first. -/
theorem production_smoketests_status_spec (builds : List Build) :
    (production_smoketests_status builds).1
        = (builds.filter (fun b => b.result.isSome)).length ∧
    (production_smoketests_status builds).2
        = (builds.filter (fun b => b.result == some "SUCCESS")).length ∧
    (production_smoketests_status builds).2 ≤ (production_smoketests_status builds).1 := by
  refine ⟨rfl, rfl, ?_⟩
  show (builds.filter (fun b => b.result == some "SUCCESS")).length
      ≤ (builds.filter (fun b => b.result.isSome)).length
  rw [← List.countP_eq_length_filter, ← List.countP_eq_length_filter]
  apply List.countP_mono_left
  intro b _ hb
  cases hr : b.result with
  | none => rw [hr] at hb; exact absurd hb (by decide)
  | some v => simp [hr]

/-! ## cleanup_repository (dashboard.py lines 278-283) -/

/-- Filesystem effect of cleanup_repository. -/
inductive CleanupAction where
  | noAction
  | removeTree (dir : String) (ignore_errors : Bool)
deriving DecidableEq

/-- cleanup_repository: the repository directory is removed, with errors
ignored, only when the repository name contains no slash character;
Python membership of a single character in a string is membership in its
character list. -/
def cleanup_repository (repository : String) : CleanupAction :=
  if !(repository.data.contains (Char.ofNat 47)) then
    CleanupAction.removeTree repository true
  else CleanupAction.noAction

/-- C9: for a repository name containing a slash no deletion happens at
all, and whenever deletion runs it targets the repository directory with
errors ignored, so a missing directory is never an error. -/
theorem cleanup_repository_safe (repository : String) :
    (repository.data.contains (Char.ofNat 47) = true →
      cleanup_repository repository = CleanupAction.noAction) ∧
    (∀ dir ign, cleanup_repository repository = CleanupAction.removeTree dir ign →
      dir = repository ∧ ign = true) := by
  constructor
  · intro h
    rw [cleanup_repository, h]
    simp
  · intro dir ign h
    by_cases hc : repository.data.contains (Char.ofNat 47) = true
    · rw [cleanup_repository, hc] at h
      simp at h
    · have hc2 : repository.data.contains (Char.ofNat 47) = false := by
        cases hb : repository.data.contains (Char.ofNat 47)
        · rfl
        · exact absurd hb hc
      rw [cleanup_repository, hc2] at h
      simp at h
      exact ⟨h.1.symm, h.2⟩

theorem cleanup_repository_safe_witness :
    ("org/repo".data.contains (Char.ofNat 47) = true) ∧
    cleanup_repository "org/repo" = CleanupAction.noAction :=
  ⟨by decide, (cleanup_repository_safe "org/repo").1 (by decide)⟩

end Dashboard
